import Mathlib

/-!
Shallow embedding of `src/aresplot_client.c` (aresplot MCU-side protocol engine).

Modelling conventions:
* C machine integers become `Nat` (with explicit `% 2^w` where the C code
  narrows); negative quantities (float-to-int truncation) use `Int`.
* The C globals become fields of one state record `AresState`; each C function
  that mutates globals becomes a Lean function `AresState → ...` returning the
  updated record.
* Byte-addressed device memory (`void*` reads/writes) is a function
  `Nat → Nat`; reads take `% 256` (a C byte); multi-byte accesses are
  little-endian, matching the little-endian wire format and the usual MCU
  target of this code.
* Calls to `aresplot_user_send_packet` are modelled by returning the assembled
  frame bytes; `aresplot_user_get_tick_ms` by a `now : Nat` parameter;
  the critical-section callbacks are no-ops in this sequential model.
* Dispatching a verified frame to `process_received_frame` and queuing an ACK
  are additionally recorded as `AresEvent`s so that theorems can speak about
  "exactly one frame dispatched" / "exactly one acknowledgement queued".
* IEEE-754 conversions performed by C casts are modelled bit-exactly on `Nat`
  bit patterns, using round-to-nearest-even (the rounding used by IEEE
  hardware); float-to-int truncation is toward zero as C specifies, with
  out-of-range values (undefined behaviour in C) wrapped two's-complement.
-/

namespace Aresplot

/-! ### Configuration and protocol constants (header defines) -/

def ARESPLOT_MAX_VARS_TO_MONITOR : Nat := 10
def ARESPLOT_SHARED_BUFFER_SIZE : Nat := 128
def ARESPLOT_DEFAULT_SAMPLE_PERIOD_MS : Nat := 10
def ARESPLOT_SOP : Nat := 0xA5
def ARESPLOT_EOP : Nat := 0x5A
def ARESPLOT_CMD_START_MONITOR : Nat := 0x01
def ARESPLOT_CMD_SET_VARIABLE : Nat := 0x02
def ARESPLOT_CMD_SET_SAMPLE_RATE : Nat := 0x03
def ARESPLOT_CMD_MONITOR_DATA : Nat := 0x81
def ARESPLOT_CMD_ACK : Nat := 0x82

def ARES_STATUS_OK : Nat := 0x00
def ARES_STATUS_ERROR_CHECKSUM : Nat := 0x01
def ARES_STATUS_ERROR_UNKNOWN_CMD : Nat := 0x02
def ARES_STATUS_ERROR_INVALID_PAYLOAD : Nat := 0x03
def ARES_STATUS_ERROR_ADDR_INVALID : Nat := 0x04
def ARES_STATUS_ERROR_TYPE_UNSUPPORTED : Nat := 0x05
def ARES_STATUS_ERROR_RATE_UNACHIEVABLE : Nat := 0x06
def ARES_STATUS_ERROR_MCU_BUSY_OR_LIMIT : Nat := 0x07
def ARES_STATUS_ERROR_GENERAL_FAIL : Nat := 0xFF

/-- `aresplot_original_type_t` tag values (kept as raw `Nat` tags, since the C
code casts an arbitrary payload byte into the enum). -/
def ARES_TYPE_INT8 : Nat := 0x00
def ARES_TYPE_UINT8 : Nat := 0x01
def ARES_TYPE_INT16 : Nat := 0x02
def ARES_TYPE_UINT16 : Nat := 0x03
def ARES_TYPE_INT32 : Nat := 0x04
def ARES_TYPE_UINT32 : Nat := 0x05
def ARES_TYPE_FLOAT32 : Nat := 0x06
def ARES_TYPE_FLOAT64 : Nat := 0x07
def ARES_TYPE_BOOL : Nat := 0x08

/-! ### Receiver state machine states (`aresplot_rx_state_t`) -/

inductive RxState where
  | waitSop
  | waitCmd
  | waitLen1
  | waitLen2
  | waitPayload
  | waitChecksum
  | waitEop
deriving DecidableEq, Repr

/-! ### The global state (the C file's `static` variables) -/

/-- All mutable globals of `aresplot_mcu.c`, plus the device memory the
monitored pointers refer to.  `mem` is external device memory (byte
addressed); `rxBuf` is `g_rx_payload_buffer`; `monitorVars i` is the pair
`(g_monitor_vars[i].ptr, g_monitor_vars[i].type)`. -/
structure AresState where
  rxState : RxState
  rxBuf : Nat → Nat
  rxLen : Nat
  rxIdx : Nat
  rxCmd : Nat
  rxCk : Nat
  monitorVars : Nat → Nat × Nat
  numVars : Nat
  active : Bool
  samplePeriod : Nat
  lastSample : Nat
  ackPending : Bool
  ackCmd : Nat
  ackStatus : Nat
  mem : Nat → Nat

/-- Observable events recorded while feeding bytes: a frame handed to
`process_received_frame`, or an ACK written into the single pending slot. -/
inductive AresEvent where
  | ackQueued (cmd status : Nat)
  | dispatched (cmd : Nat) (payload : List Nat)
deriving DecidableEq, Repr

/-- Project the dispatch events out of an event trace. -/
def dispatchOf : AresEvent → Option (Nat × List Nat)
  | .dispatched c p => some (c, p)
  | _ => none

/-! ### Small helpers (pointwise function update, little-endian bytes) -/

/-- Pointwise update of a byte/table map (array store in the C code). -/
def upd {α : Type} (f : Nat → α) (i : Nat) (v : α) : Nat → α :=
  fun j => if j = i then v else f j

/-- Little-endian bytes of `n`, `w` bytes wide: models the C pattern
`(uint8_t)(n >> (8*i))`. -/
def nat_to_bytes_le (w n : Nat) : List Nat :=
  (List.range w).map fun i => (n >>> (8 * i)) % 256

/-- Little-endian read of `w` bytes from device memory at `addr`
(each cell read as a byte). -/
def read_u (mem : Nat → Nat) (addr w : Nat) : Nat :=
  (List.range w).foldl (fun acc i => acc + ((mem (addr + i)) % 256) <<< (8 * i)) 0

/-- Two's-complement reinterpretation of a `w*8`-bit unsigned value. -/
def to_signed (w n : Nat) : Int :=
  if n < 2 ^ (8 * w - 1) then (n : Int) else (n : Int) - 2 ^ (8 * w)

/-- Little-endian bytes of an `Int`, wrapped to `w` bytes two's-complement
(C casts of out-of-range float-to-int are UB; the model wraps). -/
def int_to_bytes_le (w : Nat) (v : Int) : List Nat :=
  nat_to_bytes_le w (v % ((2 : Int) ^ (8 * w))).toNat

/-- Write a byte list into memory at consecutive addresses (the C stores
`*(volatile intN_t*)addr = ...`, little-endian). -/
def write_bytes_le (mem : Nat → Nat) (addr : Nat) : List Nat → (Nat → Nat)
  | [] => mem
  | b :: bs => write_bytes_le (upd mem addr b) (addr + 1) bs

/-- Sequential stores of a byte list into a buffer starting at index `i`
(the closed form of what `ARES_RX_STATE_WAIT_PAYLOAD` does to
`g_rx_payload_buffer` over a run of payload bytes). -/
def write_seq (buf : Nat → Nat) (i : Nat) : List Nat → (Nat → Nat)
  | [] => buf
  | b :: bs => write_seq (upd buf i b) (i + 1) bs

/-- The C idiom `(uint32_t)p[0] | ((uint32_t)p[1]<<8) | ((uint32_t)p[2]<<16)
| ((uint32_t)p[3]<<24)` reading from the payload buffer at `off`. -/
def le32_at (buf : Nat → Nat) (off : Nat) : Nat :=
  buf off ||| (buf (off + 1) <<< 8) ||| (buf (off + 2) <<< 16) ||| (buf (off + 3) <<< 24)

/-! ### IEEE-754 binary32 modelling (bit patterns as `Nat`) -/

/-- Round-to-nearest-even of `q` with discarded remainder `r` (`half` is half
of the discarded weight). -/
def rne (q r half : Nat) : Nat :=
  if half < r ∨ (r = half ∧ q % 2 = 1) then q + 1 else q

/-- Floor of log2 for values `< 2^64` (all significands used here), written
with a bounded scan so the kernel can evaluate it. -/
def floorLog2 (n : Nat) : Nat :=
  ((List.range 64).filter fun i => 2 ^ i ≤ n).length - 1

/-- binary32 bit pattern of the real number `(-1)^sgn * sig * 2^e`
(`sig : Nat`, `e : Int`), rounded to nearest, ties to even.  This is the
rounding performed by IEEE-754 hardware for C's numeric conversions. -/
def round_to_f32 (sgn sig : Nat) (e : Int) : Nat :=
  if sig = 0 then sgn * 2 ^ 31
  else
    let L : Nat := floorLog2 sig
    let E : Int := e + L
    if E < -126 then
      -- result is subnormal (or rounds into the smallest normal)
      let sh : Int := -(e + 149)
      let q :=
        if sh ≤ 0 then sig <<< (-sh).toNat
        else rne (sig >>> sh.toNat) (sig % 2 ^ sh.toNat) (2 ^ (sh.toNat - 1))
      sgn * 2 ^ 31 + q
    else
      let shm : Int := (L : Int) - 23
      let q :=
        if shm ≤ 0 then sig <<< (-shm).toNat
        else rne (sig >>> shm.toNat) (sig % 2 ^ shm.toNat) (2 ^ (shm.toNat - 1))
      let E2 : Int := if q = 2 ^ 24 then E + 1 else E
      let m : Nat := if q = 2 ^ 24 then 2 ^ 23 else q
      if 127 < E2 then sgn * 2 ^ 31 + 255 * 2 ^ 23
      else sgn * 2 ^ 31 + (E2 + 127).toNat * 2 ^ 23 + (m - 2 ^ 23)

/-- binary32 bit pattern of an integer (the C cast `(float)v`). -/
def int_to_f32_bits (v : Int) : Nat :=
  round_to_f32 (if v < 0 then 1 else 0) v.natAbs 0

/-- Truncation toward zero of a binary32 value to an integer (the C casts
`(intN_t)float_val` / `(uintN_t)float_val`).  Infinities/NaN (exponent 255)
are UB in C; the model extends the finite formula. -/
def truncF32 (bits : Nat) : Int :=
  let sgn := (bits >>> 31) % 2
  let e := (bits >>> 23) % 256
  let m := bits % 2 ^ 23
  let mag : Nat :=
    if e ≤ 126 then 0
    else if e ≤ 150 then (2 ^ 23 + m) >>> (150 - e)
    else (2 ^ 23 + m) <<< (e - 150)
  if sgn = 1 then -(mag : Int) else (mag : Int)

/-- binary64 → binary32 conversion on bit patterns (IEEE demotion,
round-to-nearest-even; NaNs map to a quiet NaN preserving the sign). -/
def f64_to_f32_bits (b : Nat) : Nat :=
  let sgn := (b >>> 63) % 2
  let e := (b >>> 52) % 2048
  let m := b % 2 ^ 52
  if e = 2047 then
    if m = 0 then sgn * 2 ^ 31 + 255 * 2 ^ 23
    else sgn * 2 ^ 31 + 255 * 2 ^ 23 + 2 ^ 22 + (m >>> 29) % 2 ^ 22
  else if e = 0 then round_to_f32 sgn m (-1074)
  else round_to_f32 sgn (2 ^ 52 + m) ((e : Int) - 1075)

/-! ### `calculate_checksum` and `assemble_and_send_frame_internal` -/

/-- XOR checksum over CMD, both LEN bytes and the payload
(`calculate_checksum` in the C file; `len` is the `uint16_t` length). -/
def calculate_checksum (cmd len : Nat) (payload : List Nat) : Nat :=
  payload.foldl (fun a b => a ^^^ b) ((cmd ^^^ (len % 256)) ^^^ ((len >>> 8) % 256))

/-- Frame assembly (`assemble_and_send_frame_internal`): returns the byte
sequence handed to `aresplot_user_send_packet`, or `none` when the frame
would not fit the shared buffer (the C function silently returns). -/
def assemble_and_send_frame_internal (cmd : Nat) (payload : List Nat) : Option (List Nat) :=
  let len := payload.length
  if 1 + 1 + 2 + len + 1 + 1 > ARESPLOT_SHARED_BUFFER_SIZE then none
  else
    some ([ARESPLOT_SOP, cmd, len % 256, (len >>> 8) % 256] ++ payload ++
      [calculate_checksum cmd len payload, ARESPLOT_EOP])

/-! ### ACK queue and command handlers -/

/-- `queue_ack_response`: unconditionally overwrite the single pending-ACK
slot (latest wins). -/
def queue_ack_response (ack_cmd_id status : Nat) (s : AresState) :
    AresState × List AresEvent :=
  ({ s with ackCmd := ack_cmd_id, ackStatus := status, ackPending := true },
   [AresEvent.ackQueued ack_cmd_id status])

/-- The population loop of `handle_cmd_start_monitor`: for `i < n`,
`g_monitor_vars[i] = {addr, type}` decoded from payload bytes `1 + 5*i ...`. -/
def set_monitor_vars (tbl : Nat → Nat × Nat) (buf : Nat → Nat) : Nat → (Nat → Nat × Nat)
  | 0 => tbl
  | n + 1 =>
    upd (set_monitor_vars tbl buf n) n
      (le32_at buf (1 + n * 5), buf (1 + n * 5 + 4))

/-- `handle_cmd_start_monitor`.  Reads `NumVariables` from the first byte of
the shared payload buffer, unconditionally deactivates monitoring and clears
the table, then validates and repopulates. -/
def handle_cmd_start_monitor (now : Nat) (s : AresState) : AresState × List AresEvent :=
  let num := s.rxBuf 0
  let base := { s with active := false, numVars := 0 }
  if num = 0 then
    queue_ack_response ARESPLOT_CMD_START_MONITOR ARES_STATUS_OK base
  else if ARESPLOT_MAX_VARS_TO_MONITOR < num then
    queue_ack_response ARESPLOT_CMD_START_MONITOR ARES_STATUS_ERROR_MCU_BUSY_OR_LIMIT base
  else if s.rxLen ≠ 1 + num * 5 then
    queue_ack_response ARESPLOT_CMD_START_MONITOR ARES_STATUS_ERROR_INVALID_PAYLOAD base
  else
    queue_ack_response ARESPLOT_CMD_START_MONITOR ARES_STATUS_OK
      { base with
          numVars := num,
          monitorVars := set_monitor_vars s.monitorVars s.rxBuf num,
          active := true,
          lastSample := now }

/-- The conversion performed by the `switch` of `handle_cmd_set_variable`:
bytes to store for a supported type tag, `none` for a tag with no case
(`default`, i.e. FLOAT64 or any tag above BOOL). -/
def set_variable_bytes (ty bits : Nat) : Option (List Nat) :=
  if ty = ARES_TYPE_INT8 then some (int_to_bytes_le 1 (truncF32 bits))
  else if ty = ARES_TYPE_UINT8 then some (int_to_bytes_le 1 (truncF32 bits))
  else if ty = ARES_TYPE_INT16 then some (int_to_bytes_le 2 (truncF32 bits))
  else if ty = ARES_TYPE_UINT16 then some (int_to_bytes_le 2 (truncF32 bits))
  else if ty = ARES_TYPE_INT32 then some (int_to_bytes_le 4 (truncF32 bits))
  else if ty = ARES_TYPE_UINT32 then some (int_to_bytes_le 4 (truncF32 bits))
  else if ty = ARES_TYPE_FLOAT32 then some (nat_to_bytes_le 4 bits)
  else if ty = ARES_TYPE_BOOL then some [if bits % 2 ^ 31 = 0 then 0 else 1]
  else none

/-- `handle_cmd_set_variable`: 9-byte payload = address(4) + type(1) +
IEEE-754 float value(4), all little-endian. -/
def handle_cmd_set_variable (s : AresState) : AresState × List AresEvent :=
  if s.rxLen ≠ 9 then
    queue_ack_response ARESPLOT_CMD_SET_VARIABLE ARES_STATUS_ERROR_INVALID_PAYLOAD s
  else
    let addr := le32_at s.rxBuf 0
    let ty := s.rxBuf 4
    let bits := le32_at s.rxBuf 5
    match set_variable_bytes ty bits with
    | none =>
      queue_ack_response ARESPLOT_CMD_SET_VARIABLE ARES_STATUS_ERROR_TYPE_UNSUPPORTED s
    | some bs =>
      queue_ack_response ARESPLOT_CMD_SET_VARIABLE ARES_STATUS_OK
        { s with mem := write_bytes_le s.mem addr bs }

/-- `handle_cmd_set_sample_rate`: 4-byte little-endian rate in Hz. -/
def handle_cmd_set_sample_rate (now : Nat) (s : AresState) : AresState × List AresEvent :=
  if s.rxLen ≠ 4 then
    queue_ack_response ARESPLOT_CMD_SET_SAMPLE_RATE ARES_STATUS_ERROR_INVALID_PAYLOAD s
  else
    let rate_hz := le32_at s.rxBuf 0
    let period :=
      if rate_hz = 0 then ARESPLOT_DEFAULT_SAMPLE_PERIOD_MS
      else if 1000 / rate_hz = 0 then 1 else 1000 / rate_hz
    queue_ack_response ARESPLOT_CMD_SET_SAMPLE_RATE ARES_STATUS_OK
      { s with samplePeriod := period, lastSample := now }

/-- `process_received_frame`: dispatch on the received command id. -/
def process_received_frame (now : Nat) (s : AresState) : AresState × List AresEvent :=
  if s.rxCmd = ARESPLOT_CMD_START_MONITOR then handle_cmd_start_monitor now s
  else if s.rxCmd = ARESPLOT_CMD_SET_VARIABLE then handle_cmd_set_variable s
  else if s.rxCmd = ARESPLOT_CMD_SET_SAMPLE_RATE then handle_cmd_set_sample_rate now s
  else queue_ack_response s.rxCmd ARES_STATUS_ERROR_UNKNOWN_CMD s

/-! ### The byte-driven receiver (`aresplot_rx_feed_byte`) -/

/-- One byte into the receive state machine.  Returns the new state and the
events (dispatch / ACK-queue) this byte caused. -/
def aresplot_rx_feed_byte (now : Nat) (s : AresState) (byte : Nat) :
    AresState × List AresEvent :=
  match s.rxState with
  | .waitSop =>
    if byte = ARESPLOT_SOP then ({ s with rxState := .waitCmd, rxCk := 0 }, [])
    else (s, [])
  | .waitCmd =>
    ({ s with rxCmd := byte, rxCk := s.rxCk ^^^ byte, rxState := .waitLen1 }, [])
  | .waitLen1 =>
    ({ s with rxLen := byte, rxCk := s.rxCk ^^^ byte, rxState := .waitLen2 }, [])
  | .waitLen2 =>
    let len := s.rxLen ||| (byte <<< 8)
    if ARESPLOT_SHARED_BUFFER_SIZE < len then
      ({ s with rxLen := len, rxCk := s.rxCk ^^^ byte, rxState := .waitSop }, [])
    else if len = 0 then
      ({ s with rxLen := len, rxCk := s.rxCk ^^^ byte, rxState := .waitChecksum }, [])
    else
      ({ s with rxLen := len, rxCk := s.rxCk ^^^ byte, rxIdx := 0,
                rxState := .waitPayload }, [])
  | .waitPayload =>
    if s.rxLen ≤ s.rxIdx + 1 then
      ({ s with rxBuf := upd s.rxBuf s.rxIdx byte, rxIdx := s.rxIdx + 1,
                rxCk := s.rxCk ^^^ byte, rxState := .waitChecksum }, [])
    else
      ({ s with rxBuf := upd s.rxBuf s.rxIdx byte, rxIdx := s.rxIdx + 1,
                rxCk := s.rxCk ^^^ byte }, [])
  | .waitChecksum =>
    if byte = s.rxCk then ({ s with rxState := .waitEop }, [])
    else
      let r := queue_ack_response s.rxCmd ARES_STATUS_ERROR_CHECKSUM s
      ({ r.1 with rxState := .waitSop }, r.2)
  | .waitEop =>
    if byte = ARESPLOT_EOP then
      let pl := (List.range s.rxLen).map s.rxBuf
      let r := process_received_frame now s
      ({ r.1 with rxState := .waitSop }, AresEvent.dispatched s.rxCmd pl :: r.2)
    else ({ s with rxState := .waitSop }, [])

/-- `aresplot_rx_feed_packet`: iterate `aresplot_rx_feed_byte` over a byte
list, concatenating the event traces. -/
def aresplot_rx_feed_packet (now : Nat) (s : AresState) : List Nat → AresState × List AresEvent
  | [] => (s, [])
  | b :: rest =>
    let r1 := aresplot_rx_feed_byte now s b
    let r2 := aresplot_rx_feed_packet now r1.1 rest
    (r2.1, r1.2 ++ r2.2)

/-! ### Sampling and the periodic service -/

/-- The per-entry read of the sampling pass (the `switch` inside
`send_monitor_data_payload_assembly`): produces the binary32 bit pattern of
`temp_float_val` for the entry `(ptr, type)`.  A NULL pointer yields `0.0f`;
so does any tag with no case (`default`), including `ARES_TYPE_FLOAT64`. -/
def sample_entry_bits (mem : Nat → Nat) (v : Nat × Nat) : Nat :=
  if v.1 = 0 then 0
  else if v.2 = ARES_TYPE_INT8 then int_to_f32_bits (to_signed 1 (read_u mem v.1 1))
  else if v.2 = ARES_TYPE_UINT8 then int_to_f32_bits (read_u mem v.1 1)
  else if v.2 = ARES_TYPE_INT16 then int_to_f32_bits (to_signed 2 (read_u mem v.1 2))
  else if v.2 = ARES_TYPE_UINT16 then int_to_f32_bits (read_u mem v.1 2)
  else if v.2 = ARES_TYPE_INT32 then int_to_f32_bits (to_signed 4 (read_u mem v.1 4))
  else if v.2 = ARES_TYPE_UINT32 then int_to_f32_bits (read_u mem v.1 4)
  else if v.2 = ARES_TYPE_FLOAT32 then read_u mem v.1 4
  else if v.2 = ARES_TYPE_BOOL then (if read_u mem v.1 1 = 0 then 0 else 0x3F800000)
  else 0

/-- The per-variable loop of `send_monitor_data_payload_assembly`
(entries `0 .. n-1`, four little-endian bytes of the sampled float each). -/
def monitor_entries (mem : Nat → Nat) (vars : Nat → Nat × Nat) : Nat → List Nat
  | 0 => []
  | n + 1 => monitor_entries mem vars n ++ nat_to_bytes_le 4 (sample_entry_bits mem (vars n))

/-- `send_monitor_data_payload_assembly`: the monitor-data payload,
`[4-byte timestamp][4 bytes per monitored variable]`, or `[]` when
monitoring is inactive or the table is empty. -/
def send_monitor_data_payload_assembly (now : Nat) (s : AresState) : List Nat :=
  if s.active = false ∨ s.numVars = 0 then []
  else nat_to_bytes_le 4 now ++ monitor_entries s.mem s.monitorVars s.numVars

/-- The refinement-comparison reading of the spec for the sampling pass:
"Each entry is read according to its declared type and widened to a 32-bit
float (NULL/zero address yields 0.0)", over the data model's declared tags,
including "64-bit float treated as 32-bit on the wire" (read the 8-byte
double and demote it to binary32).  This follows the spec's words and is
compared against the source-derived `sample_entry_bits`. -/
def spec_sample_entry_bits (mem : Nat → Nat) (v : Nat × Nat) : Nat :=
  if v.1 = 0 then 0
  else if v.2 = ARES_TYPE_INT8 then int_to_f32_bits (to_signed 1 (read_u mem v.1 1))
  else if v.2 = ARES_TYPE_UINT8 then int_to_f32_bits (read_u mem v.1 1)
  else if v.2 = ARES_TYPE_INT16 then int_to_f32_bits (to_signed 2 (read_u mem v.1 2))
  else if v.2 = ARES_TYPE_UINT16 then int_to_f32_bits (read_u mem v.1 2)
  else if v.2 = ARES_TYPE_INT32 then int_to_f32_bits (to_signed 4 (read_u mem v.1 4))
  else if v.2 = ARES_TYPE_UINT32 then int_to_f32_bits (read_u mem v.1 4)
  else if v.2 = ARES_TYPE_FLOAT32 then read_u mem v.1 4
  else if v.2 = ARES_TYPE_FLOAT64 then f64_to_f32_bits (read_u mem v.1 8)
  else if v.2 = ARES_TYPE_BOOL then (if read_u mem v.1 1 = 0 then 0 else 0x3F800000)
  else 0

/-- The wraparound-aware elapsed-time computation inside
`aresplot_service_tick` (all quantities `uint32_t`; the sum in the wrapped
branch never exceeds `2^32 - 1`, so plain `Nat` addition is exact). -/
def time_diff (current last : Nat) : Nat :=
  if last ≤ current then current - last
  else (0xFFFFFFFF - last) + current + 1

/-- `aresplot_service_tick`: drain the pending ACK, then (monitoring active,
table non-empty, sample due) emit a monitor-data frame and advance the
last-sample time.  Returns the new state and the frames transmitted, in
order.  (The optional error-report path is compiled out:
`ARESPLOT_ENABLE_ERROR_REPORT` is 0.) -/
def aresplot_service_tick (now : Nat) (s : AresState) : AresState × List (List Nat) :=
  let ackPart : AresState × List (List Nat) :=
    if s.ackPending then
      ({ s with ackPending := false },
       (assemble_and_send_frame_internal ARESPLOT_CMD_ACK
         [s.ackCmd, s.ackStatus % 256]).toList)
    else (s, [])
  let s1 := ackPart.1
  if s1.active = true ∧ 0 < s1.numVars then
    if s1.samplePeriod ≤ time_diff now s1.lastSample then
      let payload := send_monitor_data_payload_assembly now s1
      let dataFrames :=
        if 0 < payload.length then
          (assemble_and_send_frame_internal ARESPLOT_CMD_MONITOR_DATA payload).toList
        else []
      ({ s1 with lastSample := now }, ackPart.2 ++ dataFrames)
    else (s1, ackPart.2)
  else (s1, ackPart.2)

/-- `aresplot_init` (static storage is zero-initialized in C; `mem` is the
external device memory, arbitrary). -/
def aresplot_init (mem : Nat → Nat) : AresState where
  rxState := .waitSop
  rxBuf := fun _ => 0
  rxLen := 0
  rxIdx := 0
  rxCmd := 0
  rxCk := 0
  monitorVars := fun _ => (0, 0)
  numVars := 0
  active := false
  samplePeriod := ARESPLOT_DEFAULT_SAMPLE_PERIOD_MS
  lastSample := 0
  ackPending := false
  ackCmd := 0
  ackStatus := 0
  mem := mem

/-- States reachable from initialization by feeding bytes and running the
periodic service. -/
inductive Reachable : AresState → Prop where
  | init : ∀ mem, Reachable (aresplot_init mem)
  | feed : ∀ {s} (now byte : Nat), Reachable s →
      Reachable (aresplot_rx_feed_byte now s byte).1
  | tick : ∀ {s} (now : Nat), Reachable s →
      Reachable (aresplot_service_tick now s).1

/-! ### Concrete fixtures used by counterexamples and witnesses -/

/-- All-zero device memory. -/
def zero_mem : Nat → Nat := fun _ => 0

/-- Device memory holding the binary64 bit pattern of `1.0`
(`0x3FF0000000000000`) little-endian at address 8. -/
def c3_mem : Nat → Nat := fun a => if a = 14 then 0xF0 else if a = 15 then 0x3F else 0

/-- Byte stream: one valid frame for the unrecognized command `0x10` with
two payload bytes `v, w` (checksum `0x12` is valid whenever `v ^^^ w = 0`),
followed by one valid zero-payload-length `CMD_START_MONITOR` frame.  The
trailing start-monitor frame is byte-identical for every choice of `v, w`. -/
def c10_run (v w : Nat) : List Nat :=
  [0xA5, 0x10, 2, 0, v, w, 0x12, 0x5A] ++ [0xA5, 0x01, 0, 0, 0x01, 0x5A]

/-- A state with monitoring active on one `uint8` variable at address 4. -/
def c4_state : AresState :=
  { aresplot_init zero_mem with
      active := true, numVars := 1, monitorVars := fun _ => (4, ARES_TYPE_UINT8) }

/-- A state just after receiving a 4-byte (all-zero) sample-rate payload. -/
def c5_state : AresState := { aresplot_init zero_mem with rxLen := 4 }

/-- A state holding a 9-byte set-variable payload: address 4, type UINT8,
float value `3.5f` (bits `0x40600000`). -/
def c6_state : AresState :=
  { aresplot_init zero_mem with
      rxLen := 9, rxBuf := write_seq zero_mem 0 [4, 0, 0, 0, 1, 0, 0, 0x60, 0x40] }

/-- Like `c6_state` but with the unsupported type tag FLOAT64 (0x07). -/
def c6_bad_state : AresState :=
  { aresplot_init zero_mem with
      rxLen := 9, rxBuf := write_seq zero_mem 0 [4, 0, 0, 0, 7, 0, 0, 0x60, 0x40] }

/-- A state holding a start-monitor payload declaring 11 variables
(one more than the supported maximum). -/
def c7_state : AresState :=
  { aresplot_init zero_mem with rxLen := 1, rxBuf := upd zero_mem 0 11 }

/-- The receiver four bytes into a frame (`SOP`, command 5, length 2):
a concrete reachable state sitting in `AwaitPayload`. -/
def c9_state : AresState :=
  (aresplot_rx_feed_byte 0
    ((aresplot_rx_feed_byte 0
      ((aresplot_rx_feed_byte 0
        ((aresplot_rx_feed_byte 0 (aresplot_init zero_mem) 0xA5).1) 0x05).1) 0x02).1) 0x00).1

/-- A receiver state in `AwaitLengthHigh` with length LSB 200 already
latched (any high byte then declares an oversize payload). -/
def c9_len2_state : AresState :=
  { aresplot_init zero_mem with rxState := .waitLen2, rxLen := 200 }

/-! ## Helper lemmas -/

theorem length_nat_to_bytes_le (w n : Nat) : (nat_to_bytes_le w n).length = w := by
  simp [nat_to_bytes_le]

theorem length_monitor_entries (mem : Nat → Nat) (vars : Nat → Nat × Nat) :
    ∀ n, (monitor_entries mem vars n).length = 4 * n := by
  intro n
  induction n with
  | zero => rfl
  | succ k ih => simp [monitor_entries, ih, length_nat_to_bytes_le]; omega

theorem assemble_some (cmd : Nat) (payload : List Nat)
    (h : payload.length + 6 ≤ ARESPLOT_SHARED_BUFFER_SIZE) :
    assemble_and_send_frame_internal cmd payload =
      some ([ARESPLOT_SOP, cmd, payload.length % 256, (payload.length >>> 8) % 256] ++
        payload ++ [calculate_checksum cmd payload.length payload, ARESPLOT_EOP]) := by
  unfold assemble_and_send_frame_internal
  rw [if_neg (by omega)]

theorem set_variable_bytes_none_iff (ty bits : Nat) :
    set_variable_bytes ty bits = none ↔ (ty = ARES_TYPE_FLOAT64 ∨ 8 < ty) := by
  unfold set_variable_bytes
  rcases Nat.lt_or_ge ty 9 with h | h
  · interval_cases ty <;>
      simp [ARES_TYPE_INT8, ARES_TYPE_UINT8, ARES_TYPE_INT16, ARES_TYPE_UINT16,
        ARES_TYPE_INT32, ARES_TYPE_UINT32, ARES_TYPE_FLOAT32, ARES_TYPE_FLOAT64,
        ARES_TYPE_BOOL]
  · rw [if_neg (by simp [ARES_TYPE_INT8]; omega), if_neg (by simp [ARES_TYPE_UINT8]; omega),
      if_neg (by simp [ARES_TYPE_INT16]; omega), if_neg (by simp [ARES_TYPE_UINT16]; omega),
      if_neg (by simp [ARES_TYPE_INT32]; omega), if_neg (by simp [ARES_TYPE_UINT32]; omega),
      if_neg (by simp [ARES_TYPE_FLOAT32]; omega), if_neg (by simp [ARES_TYPE_BOOL]; omega)]
    simp [ARES_TYPE_FLOAT64]
    omega

/-! ## C4 — wraparound-correct sample scheduling -/

/-- C4: the scheduler's elapsed time is `now - last` when `now ≥ last` and
`(MAX - last) + now + 1` when `now < last` (i.e. `(now + 2^32 - last) mod
2^32`), a sample is due exactly when the elapsed time reaches the period,
and in particular with `last = MAX-5`, `now = 10`, `period = 10` a sample
is due. -/
theorem time_diff_wraparound_sample_due :
    (∀ last now : Nat, last < 2 ^ 32 → now < 2 ^ 32 →
      (last ≤ now → time_diff now last = now - last) ∧
      (now < last → time_diff now last = (0xFFFFFFFF - last) + now + 1) ∧
      time_diff now last = (now + 2 ^ 32 - last) % 2 ^ 32) ∧
    (∀ (now : Nat) (s : AresState), s.active = true → 0 < s.numVars →
      s.numVars ≤ ARESPLOT_MAX_VARS_TO_MONITOR → s.ackPending = false →
      ((aresplot_service_tick now s).2 ≠ [] ↔
        s.samplePeriod ≤ time_diff now s.lastSample)) ∧
    time_diff 10 (0xFFFFFFFF - 5) = 16 ∧
    ARESPLOT_DEFAULT_SAMPLE_PERIOD_MS ≤ time_diff 10 (0xFFFFFFFF - 5) := by
  have hpow : (2 : Nat) ^ 32 = 4294967296 := by norm_num
  refine ⟨?_, ?_, by decide, by decide⟩
  · intro last now h1 h2
    refine ⟨fun h => by simp [time_diff, h], fun h => ?_, ?_⟩
    · unfold time_diff
      rw [if_neg (by omega)]
    · unfold time_diff
      rw [hpow] at h1 h2 ⊢
      split <;> omega
  · intro now s hact hn hmax hap
    have hne : s.numVars ≠ 0 := by omega
    unfold aresplot_service_tick
    simp only [hap, if_false, Bool.false_eq_true]
    simp only [hact, hn, and_self, if_true, true_and]
    split
    · rename_i hdue
      have hpl : (send_monitor_data_payload_assembly now s).length = 4 + 4 * s.numVars := by
        simp [send_monitor_data_payload_assembly, hact, hne, length_nat_to_bytes_le,
          length_monitor_entries]
      rw [ARESPLOT_MAX_VARS_TO_MONITOR] at hmax
      rw [if_pos (by omega), assemble_some _ _ (by rw [hpl, ARESPLOT_SHARED_BUFFER_SIZE]; omega)]
      simpa using hdue
    · rename_i hdue
      simpa using hdue

/-- C4 witness: concrete instantiations of each hypothesis-laden conjunct. -/
theorem time_diff_wraparound_sample_due_witness :
    time_diff 10 5 = 5 ∧ (aresplot_service_tick 100 c4_state).2 ≠ [] :=
  ⟨((time_diff_wraparound_sample_due.1 5 10 (by norm_num) (by norm_num)).1 (by norm_num)),
   ((time_diff_wraparound_sample_due.2.1 100 c4_state rfl (by decide) (by decide) rfl).mpr
     (by decide))⟩

/-! ## C5 — set-sample-rate semantics -/

/-- C5: with a 4-byte payload, rate 0 restores the compile-time default
period; a non-zero rate yields `1000 / rate` floored at 1 ms (never 0); the
last-sample time resets to `now`; and the handler queues exactly one OK
acknowledgement. -/
theorem set_sample_rate_ok (now : Nat) (s : AresState) (h4 : s.rxLen = 4) :
    (le32_at s.rxBuf 0 = 0 →
      (handle_cmd_set_sample_rate now s).1.samplePeriod = ARESPLOT_DEFAULT_SAMPLE_PERIOD_MS) ∧
    (le32_at s.rxBuf 0 ≠ 0 →
      (handle_cmd_set_sample_rate now s).1.samplePeriod = max 1 (1000 / le32_at s.rxBuf 0) ∧
      (handle_cmd_set_sample_rate now s).1.samplePeriod ≠ 0) ∧
    (handle_cmd_set_sample_rate now s).1.lastSample = now ∧
    (handle_cmd_set_sample_rate now s).1.ackPending = true ∧
    (handle_cmd_set_sample_rate now s).1.ackCmd = ARESPLOT_CMD_SET_SAMPLE_RATE ∧
    (handle_cmd_set_sample_rate now s).1.ackStatus = ARES_STATUS_OK ∧
    (handle_cmd_set_sample_rate now s).2 =
      [AresEvent.ackQueued ARESPLOT_CMD_SET_SAMPLE_RATE ARES_STATUS_OK] := by
  unfold handle_cmd_set_sample_rate
  rw [if_neg (by simp [h4])]
  refine ⟨fun h0 => by simp [h0, queue_ack_response], fun h0 => ⟨?_, ?_⟩,
    by simp [queue_ack_response], by simp [queue_ack_response],
    by simp [queue_ack_response], by simp [queue_ack_response],
    by simp [queue_ack_response]⟩
  · simp only [queue_ack_response]
    rw [if_neg h0]
    rcases Nat.eq_zero_or_pos (1000 / le32_at s.rxBuf 0) with hz | hz
    · simp [hz]
    · rw [if_neg (by omega)]
      omega
  · simp only [queue_ack_response]
    rw [if_neg h0]
    split <;> omega

/-- C5 witness: all-zero 4-byte payload requests rate 0 and restores the
default period, resetting the last-sample time. -/
theorem set_sample_rate_ok_witness :
    (handle_cmd_set_sample_rate 7 c5_state).1.samplePeriod = ARESPLOT_DEFAULT_SAMPLE_PERIOD_MS ∧
    (handle_cmd_set_sample_rate 7 c5_state).1.lastSample = 7 :=
  ⟨(set_sample_rate_ok 7 c5_state rfl).1 (by decide),
   (set_sample_rate_ok 7 c5_state rfl).2.2.1⟩

/-! ## C7 — start-monitor over the variable limit -/

/-- C7: a start-monitor frame declaring more variables than the maximum
leaves the table empty and monitoring inactive, and queues exactly one
busy-or-limit acknowledgement, regardless of the rest of the payload. -/
theorem start_monitor_over_limit (now : Nat) (s : AresState)
    (h : ARESPLOT_MAX_VARS_TO_MONITOR < s.rxBuf 0) :
    (handle_cmd_start_monitor now s).1.ackPending = true ∧
    (handle_cmd_start_monitor now s).1.ackCmd = ARESPLOT_CMD_START_MONITOR ∧
    (handle_cmd_start_monitor now s).1.ackStatus = ARES_STATUS_ERROR_MCU_BUSY_OR_LIMIT ∧
    (handle_cmd_start_monitor now s).1.numVars = 0 ∧
    (handle_cmd_start_monitor now s).1.active = false ∧
    (handle_cmd_start_monitor now s).2 =
      [AresEvent.ackQueued ARESPLOT_CMD_START_MONITOR ARES_STATUS_ERROR_MCU_BUSY_OR_LIMIT] := by
  have h0 : s.rxBuf 0 ≠ 0 := by
    rw [ARESPLOT_MAX_VARS_TO_MONITOR] at h; omega
  unfold handle_cmd_start_monitor
  rw [if_neg h0, if_pos h]
  simp [queue_ack_response]

/-- C7 witness: payload declaring 11 variables on a 10-entry table. -/
theorem start_monitor_over_limit_witness :
    (handle_cmd_start_monitor 0 c7_state).1.ackStatus = ARES_STATUS_ERROR_MCU_BUSY_OR_LIMIT ∧
    (handle_cmd_start_monitor 0 c7_state).1.numVars = 0 ∧
    (handle_cmd_start_monitor 0 c7_state).1.active = false :=
  ⟨(start_monitor_over_limit 0 c7_state (by decide)).2.2.1,
   (start_monitor_over_limit 0 c7_state (by decide)).2.2.2.1,
   (start_monitor_over_limit 0 c7_state (by decide)).2.2.2.2.1⟩

/-! ## C6 — set-variable type dispatch -/

/-- C6: with a 9-byte payload, a type tag with no conversion case (FLOAT64
or any tag above BOOL) leaves every memory cell unchanged and queues a
type-unsupported acknowledgement; a supported tag converts the IEEE-754
float to the declared type's representation, writes it at the decoded
address, and acknowledges OK. -/
theorem set_variable_type_dispatch (s : AresState) (h9 : s.rxLen = 9) :
    (set_variable_bytes (s.rxBuf 4) (le32_at s.rxBuf 5) = none ↔
      (s.rxBuf 4 = ARES_TYPE_FLOAT64 ∨ 8 < s.rxBuf 4)) ∧
    (set_variable_bytes (s.rxBuf 4) (le32_at s.rxBuf 5) = none →
      (∀ a, (handle_cmd_set_variable s).1.mem a = s.mem a) ∧
      (handle_cmd_set_variable s).1.ackPending = true ∧
      (handle_cmd_set_variable s).1.ackCmd = ARESPLOT_CMD_SET_VARIABLE ∧
      (handle_cmd_set_variable s).1.ackStatus = ARES_STATUS_ERROR_TYPE_UNSUPPORTED) ∧
    (∀ bs, set_variable_bytes (s.rxBuf 4) (le32_at s.rxBuf 5) = some bs →
      (∀ a, (handle_cmd_set_variable s).1.mem a =
        write_bytes_le s.mem (le32_at s.rxBuf 0) bs a) ∧
      (handle_cmd_set_variable s).1.ackPending = true ∧
      (handle_cmd_set_variable s).1.ackCmd = ARESPLOT_CMD_SET_VARIABLE ∧
      (handle_cmd_set_variable s).1.ackStatus = ARES_STATUS_OK) := by
  refine ⟨set_variable_bytes_none_iff _ _, fun hnone => ?_, fun bs hbs => ?_⟩
  · unfold handle_cmd_set_variable
    rw [if_neg (by simp [h9])]
    simp [hnone, queue_ack_response]
  · unfold handle_cmd_set_variable
    rw [if_neg (by simp [h9])]
    simp [hbs, queue_ack_response]

/-- C6 witness: a supported write (UINT8, value 3.5f truncated to 3, written
at address 4) and an unsupported one (FLOAT64 tag leaves memory untouched,
type-unsupported status). -/
theorem set_variable_type_dispatch_witness :
    ((∀ a, (handle_cmd_set_variable c6_state).1.mem a =
        write_bytes_le c6_state.mem (le32_at c6_state.rxBuf 0) [3] a) ∧
      (handle_cmd_set_variable c6_state).1.ackStatus = ARES_STATUS_OK) ∧
    ((∀ a, (handle_cmd_set_variable c6_bad_state).1.mem a = c6_bad_state.mem a) ∧
      (handle_cmd_set_variable c6_bad_state).1.ackStatus =
        ARES_STATUS_ERROR_TYPE_UNSUPPORTED) :=
  ⟨⟨((set_variable_type_dispatch c6_state rfl).2.2 [3] (by decide)).1,
    ((set_variable_type_dispatch c6_state rfl).2.2 [3] (by decide)).2.2.2⟩,
   ⟨((set_variable_type_dispatch c6_bad_state rfl).2.1 (by decide)).1,
    ((set_variable_type_dispatch c6_bad_state rfl).2.1 (by decide)).2.2.2⟩⟩

/-! ## C8 — latest-wins acknowledgement slot -/

/-- C8: queuing a second acknowledgement before the service drains the slot
overwrites the first; the next service tick transmits exactly the second
one's command id and status, clears the slot, and the first acknowledgement
is never transmitted (unless it was byte-identical to the second). -/
theorem ack_latest_wins (now a1 st1 a2 st2 : Nat) (s : AresState)
    (hst2 : st2 < 256) (hact : s.active = false) :
    (queue_ack_response a2 st2 (queue_ack_response a1 st1 s).1).1.ackPending = true ∧
    (queue_ack_response a2 st2 (queue_ack_response a1 st1 s).1).1.ackCmd = a2 ∧
    (queue_ack_response a2 st2 (queue_ack_response a1 st1 s).1).1.ackStatus = st2 ∧
    (aresplot_service_tick now (queue_ack_response a2 st2 (queue_ack_response a1 st1 s).1).1).2 =
      [[ARESPLOT_SOP, ARESPLOT_CMD_ACK, 2, 0, a2, st2,
        calculate_checksum ARESPLOT_CMD_ACK 2 [a2, st2], ARESPLOT_EOP]] ∧
    (aresplot_service_tick now
      (queue_ack_response a2 st2 (queue_ack_response a1 st1 s).1).1).1.ackPending = false ∧
    ([ARESPLOT_SOP, ARESPLOT_CMD_ACK, 2, 0, a1, st1,
        calculate_checksum ARESPLOT_CMD_ACK 2 [a1, st1], ARESPLOT_EOP] ∈
      (aresplot_service_tick now
        (queue_ack_response a2 st2 (queue_ack_response a1 st1 s).1).1).2 →
      a1 = a2 ∧ st1 = st2) := by
  have hmod : st2 % 256 = st2 := Nat.mod_eq_of_lt hst2
  have hframe : (aresplot_service_tick now
      (queue_ack_response a2 st2 (queue_ack_response a1 st1 s).1).1).2 =
      [[ARESPLOT_SOP, ARESPLOT_CMD_ACK, 2, 0, a2, st2,
        calculate_checksum ARESPLOT_CMD_ACK 2 [a2, st2], ARESPLOT_EOP]] := by
    unfold aresplot_service_tick queue_ack_response
    rw [assemble_some _ _ (by simp [ARESPLOT_SHARED_BUFFER_SIZE])]
    simp [hact, hmod, calculate_checksum]
  refine ⟨rfl, rfl, rfl, hframe, ?_, ?_⟩
  · unfold aresplot_service_tick queue_ack_response
    simp [hact]
  · rw [hframe]
    intro hmem
    simp only [List.mem_singleton, List.cons.injEq] at hmem
    exact ⟨hmem.2.2.2.2.1, hmem.2.2.2.2.2.1⟩

/-- C8 witness: two concrete acknowledgements queued back-to-back; only the
second (command 3, status 4) is transmitted. -/
theorem ack_latest_wins_witness :
    (queue_ack_response 3 4 (queue_ack_response 1 2 (aresplot_init zero_mem)).1).1.ackCmd = 3 ∧
    (aresplot_service_tick 0
      (queue_ack_response 3 4 (queue_ack_response 1 2 (aresplot_init zero_mem)).1).1).2 =
      [[ARESPLOT_SOP, ARESPLOT_CMD_ACK, 2, 0, 3, 4,
        calculate_checksum ARESPLOT_CMD_ACK 2 [3, 4], ARESPLOT_EOP]] :=
  ⟨(ack_latest_wins 0 1 2 3 4 (aresplot_init zero_mem) (by norm_num) rfl).2.1,
   (ack_latest_wins 0 1 2 3 4 (aresplot_init zero_mem) (by norm_num) rfl).2.2.2.1⟩

/-! ## C3 — per-type sampling reads (corrected: FLOAT64 is never read) -/

/-- C3 counterexample: it is not the case that every in-range declared tag
with a non-NULL address is read from memory and widened to binary32 — with
the FLOAT64 tag (0x07) and memory holding the double `1.0`, the sampling
pass emits `0.0f` (bits 0) where the spec's reading demands `1.0f`
(bits `0x3F800000`). -/
theorem sample_float64_counterexample :
    ¬ (∀ (mem : Nat → Nat) (ptr ty : Nat), ptr ≠ 0 → ty ≤ 8 →
        sample_entry_bits mem (ptr, ty) = spec_sample_entry_bits mem (ptr, ty)) := by
  intro h
  have h2 := h c3_mem 8 7 (by decide) (by decide)
  revert h2
  decide

/-- C3 (amended): for every declared tag except FLOAT64 — signed/unsigned
8/16/32-bit integers, 32-bit float, boolean — the sampling pass reads the
entry's memory per the declared type and widens the value to binary32, with
a NULL address yielding 0.0; the FLOAT64 tag (like any unknown tag) is
never read and always yields 0.0; and the emitted monitor-data payload
carries 4 timestamp bytes plus 4 bytes per entry. -/
theorem sample_widens_per_declared_type :
    (∀ (mem : Nat → Nat) (ptr ty : Nat), ty ≤ 8 → ty ≠ ARES_TYPE_FLOAT64 →
      sample_entry_bits mem (ptr, ty) = spec_sample_entry_bits mem (ptr, ty)) ∧
    (∀ (mem : Nat → Nat) (ptr : Nat), sample_entry_bits mem (ptr, ARES_TYPE_FLOAT64) = 0) ∧
    (∀ (now : Nat) (s : AresState), s.active = true → s.numVars ≠ 0 →
      (send_monitor_data_payload_assembly now s).length = 4 + 4 * s.numVars) := by
  refine ⟨fun mem ptr ty h8 h7 => ?_, fun mem ptr => ?_, fun now s hact hne => ?_⟩
  · rw [ARES_TYPE_FLOAT64] at h7
    interval_cases ty <;>
      simp_all [sample_entry_bits, spec_sample_entry_bits, ARES_TYPE_INT8, ARES_TYPE_UINT8,
        ARES_TYPE_INT16, ARES_TYPE_UINT16, ARES_TYPE_INT32, ARES_TYPE_UINT32,
        ARES_TYPE_FLOAT32, ARES_TYPE_FLOAT64, ARES_TYPE_BOOL]
  · simp [sample_entry_bits, ARES_TYPE_INT8, ARES_TYPE_UINT8, ARES_TYPE_INT16,
      ARES_TYPE_UINT16, ARES_TYPE_INT32, ARES_TYPE_UINT32, ARES_TYPE_FLOAT32,
      ARES_TYPE_FLOAT64, ARES_TYPE_BOOL]
  · simp [send_monitor_data_payload_assembly, hact, hne, length_nat_to_bytes_le,
      length_monitor_entries]

/-- C3 amended-claim witness: a UINT8 entry at address 4 agrees with the
spec's read-and-widen description; a FLOAT64 entry yields 0.0. -/
theorem sample_widens_per_declared_type_witness :
    sample_entry_bits zero_mem (4, ARES_TYPE_UINT8) =
      spec_sample_entry_bits zero_mem (4, ARES_TYPE_UINT8) ∧
    sample_entry_bits c3_mem (8, ARES_TYPE_FLOAT64) = 0 ∧
    (send_monitor_data_payload_assembly 0 c4_state).length = 4 + 4 * c4_state.numVars :=
  ⟨sample_widens_per_declared_type.1 zero_mem 4 ARES_TYPE_UINT8 (by decide) (by decide),
   sample_widens_per_declared_type.2.1 c3_mem 8,
   sample_widens_per_declared_type.2.2 0 c4_state rfl (by decide)⟩

/-! ## C10 — zero-length start-monitor reads residual buffer bytes -/

/-- C10: the two byte streams `c10_run 0 0` and `c10_run 11 11` end with the
byte-identical zero-payload-length start-monitor frame and differ only in
the two payload bytes of the earlier (unknown-command) frame; both runs
dispatch the start-monitor frame, yet one run acknowledges it OK while the
other acknowledges busy-or-limit, because the handler reads the variable
count from residual byte 0 of the shared payload buffer. -/
theorem zero_length_start_monitor_residual :
    (c10_run 0 0).drop 8 = (c10_run 11 11).drop 8 ∧
    (c10_run 0 0).take 4 = (c10_run 11 11).take 4 ∧
    ((c10_run 0 0).drop 6).take 2 = ((c10_run 11 11).drop 6).take 2 ∧
    (aresplot_rx_feed_packet 0 (aresplot_init zero_mem) (c10_run 0 0)).2.filterMap dispatchOf =
      [(0x10, [0, 0]), (ARESPLOT_CMD_START_MONITOR, [])] ∧
    (aresplot_rx_feed_packet 0 (aresplot_init zero_mem) (c10_run 11 11)).2.filterMap dispatchOf =
      [(0x10, [11, 11]), (ARESPLOT_CMD_START_MONITOR, [])] ∧
    (aresplot_rx_feed_packet 0 (aresplot_init zero_mem) (c10_run 0 0)).1.ackCmd =
      ARESPLOT_CMD_START_MONITOR ∧
    (aresplot_rx_feed_packet 0 (aresplot_init zero_mem) (c10_run 11 11)).1.ackCmd =
      ARESPLOT_CMD_START_MONITOR ∧
    (aresplot_rx_feed_packet 0 (aresplot_init zero_mem) (c10_run 0 0)).1.ackStatus =
      ARES_STATUS_OK ∧
    (aresplot_rx_feed_packet 0 (aresplot_init zero_mem) (c10_run 11 11)).1.ackStatus =
      ARES_STATUS_ERROR_MCU_BUSY_OR_LIMIT ∧
    (aresplot_rx_feed_packet 0 (aresplot_init zero_mem) (c10_run 0 0)).1.ackStatus ≠
      (aresplot_rx_feed_packet 0 (aresplot_init zero_mem) (c10_run 11 11)).1.ackStatus := by
  decide

/-! ## Receiver-run helper lemmas (for C1, C2, C9) -/

theorem feed_packet_cons (now : Nat) (s : AresState) (b : Nat) (rest : List Nat) :
    aresplot_rx_feed_packet now s (b :: rest) =
      ((aresplot_rx_feed_packet now (aresplot_rx_feed_byte now s b).1 rest).1,
        (aresplot_rx_feed_byte now s b).2 ++
          (aresplot_rx_feed_packet now (aresplot_rx_feed_byte now s b).1 rest).2) := rfl

theorem feed_packet_append (now : Nat) (s : AresState) (xs ys : List Nat) :
    aresplot_rx_feed_packet now s (xs ++ ys) =
      ((aresplot_rx_feed_packet now (aresplot_rx_feed_packet now s xs).1 ys).1,
        (aresplot_rx_feed_packet now s xs).2 ++
          (aresplot_rx_feed_packet now (aresplot_rx_feed_packet now s xs).1 ys).2) := by
  induction xs generalizing s with
  | nil => simp [aresplot_rx_feed_packet]
  | cons b bs ih => simp [aresplot_rx_feed_packet, ih]

theorem write_seq_lt (p : List Nat) :
    ∀ (buf : Nat → Nat) (i j : Nat), j < i → write_seq buf i p j = buf j := by
  induction p with
  | nil => intro buf i j _; rfl
  | cons b bs ih =>
    intro buf i j h
    show write_seq (upd buf i b) (i + 1) bs j = buf j
    rw [ih _ _ _ (by omega)]
    simp only [upd]
    rw [if_neg (by omega)]

theorem write_seq_get (p : List Nat) :
    ∀ (buf : Nat → Nat) (i j : Nat), j < p.length → write_seq buf i p (i + j) = p.getD j 0 := by
  induction p with
  | nil => intro buf i j h; simp at h
  | cons b bs ih =>
    intro buf i j h
    cases j with
    | zero =>
      show write_seq (upd buf i b) (i + 1) bs (i + 0) = b
      rw [write_seq_lt bs _ _ _ (by omega)]
      simp [upd]
    | succ k =>
      show write_seq (upd buf i b) (i + 1) bs (i + (k + 1)) = (b :: bs).getD (k + 1) 0
      have harith : i + (k + 1) = (i + 1) + k := by omega
      rw [harith, ih _ _ _ (by simpa using h), List.getD_cons_succ]

theorem range_map_write_seq (p : List Nat) (buf : Nat → Nat) :
    (List.range p.length).map (write_seq buf 0 p) = p := by
  apply List.ext_getElem (by simp)
  intro n h1 h2
  rw [List.getElem_map, List.getElem_range]
  have := write_seq_get p buf 0 n h2
  rw [Nat.zero_add] at this
  rw [this, List.getD_eq_getElem _ _ h2]

theorem feed_payload_run (now : Nat) :
    ∀ (p : List Nat) (s : AresState), p ≠ [] → s.rxState = .waitPayload →
      s.rxLen = s.rxIdx + p.length →
      aresplot_rx_feed_packet now s p =
        ({ s with rxState := .waitChecksum,
                  rxBuf := write_seq s.rxBuf s.rxIdx p,
                  rxIdx := s.rxIdx + p.length,
                  rxCk := p.foldl (fun a b => a ^^^ b) s.rxCk }, []) := by
  intro p
  induction p with
  | nil => intro s h; exact absurd rfl h
  | cons b bs ih =>
    intro s _ hst hlen
    cases bs with
    | nil =>
      have hstep : aresplot_rx_feed_byte now s b =
          ({ s with rxBuf := upd s.rxBuf s.rxIdx b, rxIdx := s.rxIdx + 1,
                    rxCk := s.rxCk ^^^ b, rxState := .waitChecksum }, []) := by
        unfold aresplot_rx_feed_byte
        rw [hst]
        dsimp only
        rw [if_pos (by simp at hlen; omega)]
      rw [feed_packet_cons, hstep]
      simp [aresplot_rx_feed_packet, write_seq]
    | cons c cs =>
      have hstep : aresplot_rx_feed_byte now s b =
          ({ s with rxBuf := upd s.rxBuf s.rxIdx b, rxIdx := s.rxIdx + 1,
                    rxCk := s.rxCk ^^^ b }, []) := by
        unfold aresplot_rx_feed_byte
        rw [hst]
        dsimp only
        rw [if_neg (by simp at hlen; omega)]
      have hrec := ih { s with rxBuf := upd s.rxBuf s.rxIdx b, rxIdx := s.rxIdx + 1,
                               rxCk := s.rxCk ^^^ b }
        (by simp) (by simpa using hst) (by simp at hlen ⊢; omega)
      rw [feed_packet_cons, hstep]
      dsimp only
      rw [hrec]
      simp only [write_seq, List.foldl_cons, List.nil_append, List.length_cons]
      have harith : s.rxIdx + 1 + (cs.length + 1) = s.rxIdx + (cs.length + 1 + 1) := by omega
      rw [harith]

theorem feed_header (now : Nat) (s : AresState) (cmd len : Nat)
    (hs : s.rxState = .waitSop) (h0 : 0 < len) (hle : len ≤ ARESPLOT_SHARED_BUFFER_SIZE) :
    aresplot_rx_feed_packet now s [ARESPLOT_SOP, cmd, len % 256, (len >>> 8) % 256] =
      ({ s with rxState := .waitPayload, rxCmd := cmd, rxLen := len, rxIdx := 0,
                rxCk := cmd ^^^ len }, []) := by
  rw [ARESPLOT_SHARED_BUFFER_SIZE] at hle
  have h1 : len % 256 = len := Nat.mod_eq_of_lt (by omega)
  have h2 : len >>> 8 = 0 := by
    rw [Nat.shiftRight_eq_div_pow]
    exact Nat.div_eq_of_lt (by norm_num; omega)
  have hgt : ¬ (ARESPLOT_SHARED_BUFFER_SIZE < len) := by
    rw [ARESPLOT_SHARED_BUFFER_SIZE]; omega
  have hz : ¬ (len = 0) := by omega
  rw [h1, h2]
  simp [aresplot_rx_feed_packet, aresplot_rx_feed_byte, hs, hgt, hz]

theorem feed_header_zero (now : Nat) (s : AresState) (cmd : Nat)
    (hs : s.rxState = .waitSop) :
    aresplot_rx_feed_packet now s [ARESPLOT_SOP, cmd, 0, 0] =
      ({ s with rxState := .waitChecksum, rxCmd := cmd, rxLen := 0, rxCk := cmd }, []) := by
  simp [aresplot_rx_feed_packet, aresplot_rx_feed_byte, hs]

theorem handle_cmd_start_monitor_events (now : Nat) (s : AresState) :
    ∃ c st, (handle_cmd_start_monitor now s).2 = [AresEvent.ackQueued c st] := by
  unfold handle_cmd_start_monitor
  by_cases h0 : s.rxBuf 0 = 0
  · rw [if_pos h0]; exact ⟨_, _, rfl⟩
  rw [if_neg h0]
  by_cases h1 : ARESPLOT_MAX_VARS_TO_MONITOR < s.rxBuf 0
  · rw [if_pos h1]; exact ⟨_, _, rfl⟩
  rw [if_neg h1]
  by_cases h2 : s.rxLen ≠ 1 + s.rxBuf 0 * 5
  · rw [if_pos h2]; exact ⟨_, _, rfl⟩
  · rw [if_neg h2]; exact ⟨_, _, rfl⟩

theorem handle_cmd_set_variable_events (s : AresState) :
    ∃ c st, (handle_cmd_set_variable s).2 = [AresEvent.ackQueued c st] := by
  unfold handle_cmd_set_variable
  by_cases h0 : s.rxLen ≠ 9
  · rw [if_pos h0]; exact ⟨_, _, rfl⟩
  rw [if_neg h0]
  rcases hb : set_variable_bytes (s.rxBuf 4) (le32_at s.rxBuf 5) with _ | bs <;>
    simp only [hb] <;> exact ⟨_, _, rfl⟩

theorem handle_cmd_set_sample_rate_events (now : Nat) (s : AresState) :
    ∃ c st, (handle_cmd_set_sample_rate now s).2 = [AresEvent.ackQueued c st] := by
  unfold handle_cmd_set_sample_rate
  by_cases h0 : s.rxLen ≠ 4
  · rw [if_pos h0]; exact ⟨_, _, rfl⟩
  · rw [if_neg h0]; exact ⟨_, _, rfl⟩

theorem process_received_frame_events (now : Nat) (s : AresState) :
    ∃ c st, (process_received_frame now s).2 = [AresEvent.ackQueued c st] := by
  unfold process_received_frame
  by_cases h1 : s.rxCmd = ARESPLOT_CMD_START_MONITOR
  · rw [if_pos h1]; exact handle_cmd_start_monitor_events now s
  rw [if_neg h1]
  by_cases h2 : s.rxCmd = ARESPLOT_CMD_SET_VARIABLE
  · rw [if_pos h2]; exact handle_cmd_set_variable_events s
  rw [if_neg h2]
  by_cases h3 : s.rxCmd = ARESPLOT_CMD_SET_SAMPLE_RATE
  · rw [if_pos h3]; exact handle_cmd_set_sample_rate_events now s
  · rw [if_neg h3]; exact ⟨_, _, rfl⟩

theorem process_received_frame_no_dispatch (now : Nat) (s : AresState) :
    (process_received_frame now s).2.filterMap dispatchOf = [] := by
  obtain ⟨c, st, hev⟩ := process_received_frame_events now s
  rw [hev]
  rfl

theorem foldl_xor_init (p : List Nat) : ∀ a d : Nat,
    p.foldl (fun x y => x ^^^ y) (a ^^^ d) = (p.foldl (fun x y => x ^^^ y) a) ^^^ d := by
  induction p with
  | nil => intro a d; rfl
  | cons b bs ih =>
    intro a d
    simp only [List.foldl_cons]
    rw [Nat.xor_assoc, Nat.xor_comm d b, ← Nat.xor_assoc, ih]

theorem foldl_xor_set (p : List Nat) : ∀ i d a : Nat, i < p.length →
    (p.set i (p.getD i 0 ^^^ d)).foldl (fun x y => x ^^^ y) a =
      (p.foldl (fun x y => x ^^^ y) a) ^^^ d := by
  induction p with
  | nil => intro i d a h; simp at h
  | cons b bs ih =>
    intro i d a h
    cases i with
    | zero =>
      simp only [List.set_cons_zero, List.getD_cons_zero, List.foldl_cons]
      rw [← Nat.xor_assoc]
      exact foldl_xor_init bs (a ^^^ b) d
    | succ k =>
      simp only [List.set_cons_succ, List.getD_cons_succ, List.foldl_cons]
      exact ih k d (a ^^^ b) (by simpa using h)

/-! ## C1 — encode-then-decode round trip -/

/-- C1: assembling a frame that fits the shared buffer and feeding its bytes
one by one to the receiver, starting in `AwaitStart`, dispatches exactly one
frame carrying the same command id and the same payload bytes, and leaves
the receiver back in `AwaitStart`. -/
theorem encode_then_decode_roundtrip (now : Nat) (s : AresState) (cmd : Nat)
    (payload frame : List Nat) (hs : s.rxState = .waitSop)
    (hfit : assemble_and_send_frame_internal cmd payload = some frame) :
    (aresplot_rx_feed_packet now s frame).2.filterMap dispatchOf = [(cmd, payload)] ∧
    (aresplot_rx_feed_packet now s frame).1.rxState = .waitSop := by
  unfold assemble_and_send_frame_internal at hfit
  by_cases hbig : 1 + 1 + 2 + payload.length + 1 + 1 > ARESPLOT_SHARED_BUFFER_SIZE
  · rw [if_pos hbig] at hfit; cases hfit
  rw [if_neg hbig] at hfit
  rw [Option.some.injEq] at hfit
  subst hfit
  rw [ARESPLOT_SHARED_BUFFER_SIZE] at hbig
  rcases payload with _ | ⟨b, bs⟩
  · -- empty payload: length field is zero, AwaitPayload is skipped
    have hck : calculate_checksum cmd 0 [] = cmd := by simp [calculate_checksum]
    simp only [List.length_nil, Nat.zero_mod, Nat.zero_shiftRight, List.append_nil, hck]
    rw [feed_packet_append, feed_header_zero now s cmd hs]
    rw [feed_packet_cons]
    have ecs : aresplot_rx_feed_byte now
        { s with rxState := .waitChecksum, rxCmd := cmd, rxLen := 0, rxCk := cmd } cmd =
        ({ s with rxState := .waitEop, rxCmd := cmd, rxLen := 0, rxCk := cmd }, []) := by
      unfold aresplot_rx_feed_byte
      dsimp only
      rw [if_pos rfl]
    rw [ecs, feed_packet_cons]
    have eeop : aresplot_rx_feed_byte now
        { s with rxState := .waitEop, rxCmd := cmd, rxLen := 0, rxCk := cmd } ARESPLOT_EOP =
        ({ (process_received_frame now
            { s with rxState := .waitEop, rxCmd := cmd, rxLen := 0, rxCk := cmd }).1 with
              rxState := .waitSop },
          AresEvent.dispatched cmd [] ::
            (process_received_frame now
              { s with rxState := .waitEop, rxCmd := cmd, rxLen := 0, rxCk := cmd }).2) := by
      unfold aresplot_rx_feed_byte
      dsimp only
      rw [if_pos rfl]
      simp
    rw [eeop]
    simp [aresplot_rx_feed_packet, dispatchOf, process_received_frame_no_dispatch]
  · -- non-empty payload
    have hle : (b :: bs).length ≤ ARESPLOT_SHARED_BUFFER_SIZE := by
      rw [ARESPLOT_SHARED_BUFFER_SIZE]; simp at hbig ⊢; omega
    rw [List.append_assoc, feed_packet_append,
      feed_header now s cmd (b :: bs).length hs (by simp) hle]
    have hrun := feed_payload_run now (b :: bs)
      { s with rxState := .waitPayload, rxCmd := cmd, rxLen := (b :: bs).length, rxIdx := 0,
               rxCk := cmd ^^^ (b :: bs).length }
      (by simp) rfl (by simp)
    rw [feed_packet_append, hrun]
    dsimp only
    have hcs : calculate_checksum cmd (b :: bs).length (b :: bs) =
        List.foldl (fun a b => a ^^^ b) (cmd ^^^ (b :: bs).length) (b :: bs) := by
      have h1 : (b :: bs).length % 256 = (b :: bs).length := by
        apply Nat.mod_eq_of_lt; simp at hbig ⊢; omega
      have h2 : (b :: bs).length >>> 8 = 0 := by
        rw [Nat.shiftRight_eq_div_pow]
        apply Nat.div_eq_of_lt; simp at hbig ⊢; omega
      unfold calculate_checksum
      rw [h1, h2]
      simp
    rw [feed_packet_cons]
    have ecs : aresplot_rx_feed_byte now
        { s with rxState := .waitChecksum,
                 rxBuf := write_seq s.rxBuf 0 (b :: bs),
                 rxLen := (b :: bs).length, rxIdx := 0 + (b :: bs).length, rxCmd := cmd,
                 rxCk := List.foldl (fun a b => a ^^^ b) (cmd ^^^ (b :: bs).length) (b :: bs) }
        (calculate_checksum cmd (b :: bs).length (b :: bs)) =
        ({ s with rxState := .waitEop,
                  rxBuf := write_seq s.rxBuf 0 (b :: bs),
                  rxLen := (b :: bs).length, rxIdx := 0 + (b :: bs).length, rxCmd := cmd,
                  rxCk := List.foldl (fun a b => a ^^^ b) (cmd ^^^ (b :: bs).length) (b :: bs) },
          []) := by
      unfold aresplot_rx_feed_byte
      dsimp only
      rw [if_pos hcs]
    rw [ecs, feed_packet_cons]
    have epl : (List.range (b :: bs).length).map (write_seq s.rxBuf 0 (b :: bs)) = b :: bs :=
      range_map_write_seq (b :: bs) s.rxBuf
    have eeop : aresplot_rx_feed_byte now
        { s with rxState := .waitEop,
                 rxBuf := write_seq s.rxBuf 0 (b :: bs),
                 rxLen := (b :: bs).length, rxIdx := 0 + (b :: bs).length, rxCmd := cmd,
                 rxCk := List.foldl (fun a b => a ^^^ b) (cmd ^^^ (b :: bs).length) (b :: bs) }
        ARESPLOT_EOP =
        ({ (process_received_frame now
            { s with rxState := .waitEop,
                     rxBuf := write_seq s.rxBuf 0 (b :: bs),
                     rxLen := (b :: bs).length, rxIdx := 0 + (b :: bs).length, rxCmd := cmd,
                     rxCk := List.foldl (fun a b => a ^^^ b) (cmd ^^^ (b :: bs).length)
                       (b :: bs) }).1 with
              rxState := .waitSop },
          AresEvent.dispatched cmd (b :: bs) ::
            (process_received_frame now
              { s with rxState := .waitEop,
                       rxBuf := write_seq s.rxBuf 0 (b :: bs),
                       rxLen := (b :: bs).length, rxIdx := 0 + (b :: bs).length, rxCmd := cmd,
                       rxCk := List.foldl (fun a b => a ^^^ b) (cmd ^^^ (b :: bs).length)
                         (b :: bs) }).2) := by
      unfold aresplot_rx_feed_byte
      dsimp only
      rw [if_pos rfl]
      rw [epl]
    rw [eeop]
    simp [aresplot_rx_feed_packet, dispatchOf, process_received_frame_no_dispatch]

/-- C1 witness: command 2 with payload `[1, 2, 3]` round-trips through
assembly and byte-by-byte reception from the initial state. -/
theorem encode_then_decode_roundtrip_witness :
    (aresplot_rx_feed_packet 0 (aresplot_init zero_mem)
        [0xA5, 2, 3, 0, 1, 2, 3, 1, 0x5A]).2.filterMap dispatchOf = [(2, [1, 2, 3])] ∧
    (aresplot_rx_feed_packet 0 (aresplot_init zero_mem)
        [0xA5, 2, 3, 0, 1, 2, 3, 1, 0x5A]).1.rxState = .waitSop :=
  encode_then_decode_roundtrip 0 (aresplot_init zero_mem) 2 [1, 2, 3]
    [0xA5, 2, 3, 0, 1, 2, 3, 1, 0x5A] rfl (by decide)

/-! ## C2 — single-bit payload corruption is rejected with a checksum ACK -/

/-- C2: flipping one bit of one payload byte of an assembled frame yields
exactly the same frame with that payload byte XORed by `2^b`; feeding the
corrupted frame from `AwaitStart` brings the receiver to `AwaitChecksum`
with an accumulated checksum that differs from the frame's checksum byte,
queues exactly one checksum-error acknowledgement for the frame's command
id, never dispatches the frame, and returns the receiver to `AwaitStart`. -/
theorem payload_bit_flip_rejected (now : Nat) (s : AresState) (cmd : Nat)
    (payload frame : List Nat) (i b : Nat) (hs : s.rxState = .waitSop)
    (hfit : assemble_and_send_frame_internal cmd payload = some frame)
    (hi : i < payload.length) (hb : b < 8) :
    frame.set (4 + i) (frame.getD (4 + i) 0 ^^^ 2 ^ b) =
      [ARESPLOT_SOP, cmd, payload.length % 256, (payload.length >>> 8) % 256] ++
        payload.set i (payload.getD i 0 ^^^ 2 ^ b) ++
        [calculate_checksum cmd payload.length payload, ARESPLOT_EOP] ∧
    (aresplot_rx_feed_packet now s
        ([ARESPLOT_SOP, cmd, payload.length % 256, (payload.length >>> 8) % 256] ++
          payload.set i (payload.getD i 0 ^^^ 2 ^ b))).1.rxState = .waitChecksum ∧
    (aresplot_rx_feed_packet now s
        ([ARESPLOT_SOP, cmd, payload.length % 256, (payload.length >>> 8) % 256] ++
          payload.set i (payload.getD i 0 ^^^ 2 ^ b))).1.rxCk =
      calculate_checksum cmd payload.length payload ^^^ 2 ^ b ∧
    (aresplot_rx_feed_packet now s
        ([ARESPLOT_SOP, cmd, payload.length % 256, (payload.length >>> 8) % 256] ++
          payload.set i (payload.getD i 0 ^^^ 2 ^ b))).1.rxCk ≠
      calculate_checksum cmd payload.length payload ∧
    (aresplot_rx_feed_packet now s
        ([ARESPLOT_SOP, cmd, payload.length % 256, (payload.length >>> 8) % 256] ++
          payload.set i (payload.getD i 0 ^^^ 2 ^ b) ++
          [calculate_checksum cmd payload.length payload, ARESPLOT_EOP])).2 =
      [AresEvent.ackQueued cmd ARES_STATUS_ERROR_CHECKSUM] ∧
    (aresplot_rx_feed_packet now s
        ([ARESPLOT_SOP, cmd, payload.length % 256, (payload.length >>> 8) % 256] ++
          payload.set i (payload.getD i 0 ^^^ 2 ^ b) ++
          [calculate_checksum cmd payload.length payload, ARESPLOT_EOP])).1.rxState = .waitSop ∧
    (aresplot_rx_feed_packet now s
        ([ARESPLOT_SOP, cmd, payload.length % 256, (payload.length >>> 8) % 256] ++
          payload.set i (payload.getD i 0 ^^^ 2 ^ b) ++
          [calculate_checksum cmd payload.length payload, ARESPLOT_EOP])).1.ackPending = true ∧
    (aresplot_rx_feed_packet now s
        ([ARESPLOT_SOP, cmd, payload.length % 256, (payload.length >>> 8) % 256] ++
          payload.set i (payload.getD i 0 ^^^ 2 ^ b) ++
          [calculate_checksum cmd payload.length payload, ARESPLOT_EOP])).1.ackCmd = cmd ∧
    (aresplot_rx_feed_packet now s
        ([ARESPLOT_SOP, cmd, payload.length % 256, (payload.length >>> 8) % 256] ++
          payload.set i (payload.getD i 0 ^^^ 2 ^ b) ++
          [calculate_checksum cmd payload.length payload, ARESPLOT_EOP])).1.ackStatus =
      ARES_STATUS_ERROR_CHECKSUM := by
  unfold assemble_and_send_frame_internal at hfit
  by_cases hbig : 1 + 1 + 2 + payload.length + 1 + 1 > ARESPLOT_SHARED_BUFFER_SIZE
  · rw [if_pos hbig] at hfit; cases hfit
  rw [if_neg hbig] at hfit
  rw [Option.some.injEq] at hfit
  subst hfit
  rw [ARESPLOT_SHARED_BUFFER_SIZE] at hbig
  have hlen122 : payload.length ≤ 122 := by omega
  have hlenpos : 0 < payload.length := by omega
  have h1 : payload.length % 256 = payload.length := Nat.mod_eq_of_lt (by omega)
  have h2 : payload.length >>> 8 = 0 := by
    rw [Nat.shiftRight_eq_div_pow]
    exact Nat.div_eq_of_lt (by omega)
  have hcs : calculate_checksum cmd payload.length payload =
      List.foldl (fun a b => a ^^^ b) (cmd ^^^ payload.length) payload := by
    unfold calculate_checksum
    rw [h1, h2]
    simp
  have hpow : (2 : Nat) ^ b ≠ 0 := Nat.pos_iff_ne_zero.mp (Nat.pos_pow_of_pos b (by norm_num))
  -- part 1: flipping frame byte 4+i is flipping payload byte i
  have hset : ([ARESPLOT_SOP, cmd, payload.length % 256, (payload.length >>> 8) % 256] ++
        (payload ++ [calculate_checksum cmd payload.length payload, ARESPLOT_EOP])).set (4 + i)
        (([ARESPLOT_SOP, cmd, payload.length % 256, (payload.length >>> 8) % 256] ++
          (payload ++ [calculate_checksum cmd payload.length payload,
            ARESPLOT_EOP])).getD (4 + i) 0 ^^^ 2 ^ b) =
      [ARESPLOT_SOP, cmd, payload.length % 256, (payload.length >>> 8) % 256] ++
        payload.set i (payload.getD i 0 ^^^ 2 ^ b) ++
        [calculate_checksum cmd payload.length payload, ARESPLOT_EOP] := by
    rw [List.getD_append_right _ _ _ _ (by simp), List.set_append_right _ _ (by simp)]
    have h4 : 4 + i - [ARESPLOT_SOP, cmd, payload.length % 256,
        (payload.length >>> 8) % 256].length = i := by simp
    rw [h4, List.getD_append _ _ _ _ hi, List.set_append_left _ _ hi, List.append_assoc]
  refine ⟨hset, ?_⟩
  -- set up the run over header + corrupted payload
  have hrunall : aresplot_rx_feed_packet now s
      ([ARESPLOT_SOP, cmd, payload.length % 256, (payload.length >>> 8) % 256] ++
        payload.set i (payload.getD i 0 ^^^ 2 ^ b)) =
      ({ s with rxState := .waitChecksum,
                rxBuf := write_seq s.rxBuf 0 (payload.set i (payload.getD i 0 ^^^ 2 ^ b)),
                rxLen := payload.length, rxIdx := payload.length, rxCmd := cmd,
                rxCk := calculate_checksum cmd payload.length payload ^^^ 2 ^ b }, []) := by
    rw [feed_packet_append,
      feed_header now s cmd payload.length hs hlenpos (by rw [ARESPLOT_SHARED_BUFFER_SIZE]; omega)]
    have hrun := feed_payload_run now (payload.set i (payload.getD i 0 ^^^ 2 ^ b))
      { s with rxState := .waitPayload, rxCmd := cmd, rxLen := payload.length, rxIdx := 0,
               rxCk := cmd ^^^ payload.length }
      (by simp [← List.length_pos_iff_ne_nil]; omega) rfl (by simp)
    rw [hrun]
    have hfold : List.foldl (fun a b => a ^^^ b) (cmd ^^^ payload.length)
        (payload.set i (payload.getD i 0 ^^^ 2 ^ b)) =
        calculate_checksum cmd payload.length payload ^^^ 2 ^ b := by
      rw [foldl_xor_set payload i (2 ^ b) (cmd ^^^ payload.length) hi, hcs]
    dsimp only
    rw [hfold]
    simp [List.length_set]
  have hne : calculate_checksum cmd payload.length payload ^^^ 2 ^ b ≠
      calculate_checksum cmd payload.length payload := by
    intro h
    have h3 : calculate_checksum cmd payload.length payload ^^^
        (calculate_checksum cmd payload.length payload ^^^ 2 ^ b) =
        calculate_checksum cmd payload.length payload ^^^
          calculate_checksum cmd payload.length payload := by rw [h]
    rw [← Nat.xor_assoc, Nat.xor_self, Nat.zero_xor] at h3
    exact hpow h3
  refine ⟨by rw [hrunall], by rw [hrunall], by rw [hrunall]; exact hne, ?_⟩
  -- the full corrupted frame
  rw [feed_packet_append, hrunall]
  have ecs : aresplot_rx_feed_byte now
      { s with rxState := .waitChecksum,
               rxBuf := write_seq s.rxBuf 0 (payload.set i (payload.getD i 0 ^^^ 2 ^ b)),
               rxLen := payload.length, rxIdx := payload.length, rxCmd := cmd,
               rxCk := calculate_checksum cmd payload.length payload ^^^ 2 ^ b }
      (calculate_checksum cmd payload.length payload) =
      ({ s with rxState := .waitSop,
                rxBuf := write_seq s.rxBuf 0 (payload.set i (payload.getD i 0 ^^^ 2 ^ b)),
                rxLen := payload.length, rxIdx := payload.length, rxCmd := cmd,
                rxCk := calculate_checksum cmd payload.length payload ^^^ 2 ^ b,
                ackPending := true, ackCmd := cmd, ackStatus := ARES_STATUS_ERROR_CHECKSUM },
        [AresEvent.ackQueued cmd ARES_STATUS_ERROR_CHECKSUM]) := by
    unfold aresplot_rx_feed_byte
    dsimp only
    rw [if_neg (fun hx => hne hx.symm)]
    rfl
  rw [feed_packet_cons, ecs]
  have eeop : aresplot_rx_feed_byte now
      { s with rxState := .waitSop,
               rxBuf := write_seq s.rxBuf 0 (payload.set i (payload.getD i 0 ^^^ 2 ^ b)),
               rxLen := payload.length, rxIdx := payload.length, rxCmd := cmd,
               rxCk := calculate_checksum cmd payload.length payload ^^^ 2 ^ b,
               ackPending := true, ackCmd := cmd, ackStatus := ARES_STATUS_ERROR_CHECKSUM }
      ARESPLOT_EOP =
      ({ s with rxState := .waitSop,
                rxBuf := write_seq s.rxBuf 0 (payload.set i (payload.getD i 0 ^^^ 2 ^ b)),
                rxLen := payload.length, rxIdx := payload.length, rxCmd := cmd,
                rxCk := calculate_checksum cmd payload.length payload ^^^ 2 ^ b,
                ackPending := true, ackCmd := cmd, ackStatus := ARES_STATUS_ERROR_CHECKSUM },
        []) := by
    unfold aresplot_rx_feed_byte
    dsimp only
    rw [if_neg (by decide)]
  rw [feed_packet_cons, eeop]
  simp [aresplot_rx_feed_packet]

/-- C2 witness: the frame for command 2 with payload `[1, 2, 3]`, with bit 2
of payload byte 1 flipped, is rejected with one checksum-error ACK. -/
theorem payload_bit_flip_rejected_witness :
    [0xA5, 2, 3, 0, 1, 2, 3, 1, 0x5A].set 5
        ([0xA5, 2, 3, 0, 1, 2, 3, 1, 0x5A].getD 5 0 ^^^ 2 ^ 2) =
      [0xA5, (2 : Nat), 3, 0] ++ [1, 6, 3] ++ [1, 0x5A] ∧
    (aresplot_rx_feed_packet 0 (aresplot_init zero_mem)
        [0xA5, 2, 3, 0, 1, 6, 3, 1, 0x5A]).2 =
      [AresEvent.ackQueued 2 ARES_STATUS_ERROR_CHECKSUM] ∧
    (aresplot_rx_feed_packet 0 (aresplot_init zero_mem)
        [0xA5, 2, 3, 0, 1, 6, 3, 1, 0x5A]).1.rxState = .waitSop := by
  have h := payload_bit_flip_rejected 0 (aresplot_init zero_mem) 2 [1, 2, 3]
    [0xA5, 2, 3, 0, 1, 2, 3, 1, 0x5A] 1 2 rfl (by decide) (by decide) (by decide)
  refine ⟨?_, ?_, ?_⟩
  · have h0 := h.1
    simp only [show ([1, 2, 3] : List Nat).set 1 (([1, 2, 3] : List Nat).getD 1 0 ^^^ 2 ^ 2) =
      [1, 6, 3] from rfl] at h0
    exact h0
  · have h0 := h.2.2.2.2.1
    simpa using h0
  · have h0 := h.2.2.2.2.2.1
    simpa using h0

/-! ## C9 — payload stores never overflow the shared buffer -/

theorem tick_preserves_rx (now : Nat) (s : AresState) :
    (aresplot_service_tick now s).1.rxState = s.rxState ∧
    (aresplot_service_tick now s).1.rxIdx = s.rxIdx ∧
    (aresplot_service_tick now s).1.rxLen = s.rxLen := by
  unfold aresplot_service_tick
  dsimp only
  repeat' split
  all_goals simp

theorem reachable_payload_inv (s : AresState) (h : Reachable s) :
    s.rxState = .waitPayload →
      s.rxIdx < s.rxLen ∧ s.rxLen ≤ ARESPLOT_SHARED_BUFFER_SIZE := by
  induction h with
  | init mem => intro hst; simp [aresplot_init] at hst
  | feed now byte hr ih =>
    rename_i t
    unfold aresplot_rx_feed_byte
    cases hst : t.rxState with
    | waitSop =>
      dsimp only
      split
      · intro hx; cases hx
      · intro hx
        dsimp only at hx
        rw [hst] at hx
        cases hx
    | waitCmd => dsimp only; intro hx; cases hx
    | waitLen1 => dsimp only; intro hx; cases hx
    | waitLen2 =>
      dsimp only
      split
      · intro hx; cases hx
      split
      · intro hx; cases hx
      · rename_i hlt hz0
        intro _
        dsimp only
        rw [ARESPLOT_SHARED_BUFFER_SIZE] at hlt ⊢
        omega
    | waitPayload =>
      have hih := ih hst
      dsimp only
      split
      · intro hx; cases hx
      · intro _
        rename_i hgt
        rw [ARESPLOT_SHARED_BUFFER_SIZE] at hih ⊢
        dsimp only
        omega
    | waitChecksum =>
      dsimp only
      split
      · intro hx; cases hx
      · intro hx; cases hx
    | waitEop =>
      dsimp only
      split
      · intro hx; cases hx
      · intro hx; cases hx
  | tick now hr ih =>
    rename_i t
    intro hst
    have hp := tick_preserves_rx now t
    rw [hp.1] at hst
    rw [hp.2.1, hp.2.2]
    exact ih hst

/-- C9: in every reachable receiver state sitting in `AwaitPayload`, the
write index is strictly below the declared length and the declared length is
at most the shared buffer capacity (so every payload store is in bounds);
and a length field exceeding the capacity aborts the frame straight back to
`AwaitStart` without storing a single payload byte. -/
theorem rx_payload_in_bounds :
    (∀ s : AresState, Reachable s → s.rxState = .waitPayload →
      s.rxIdx < s.rxLen ∧ s.rxLen ≤ ARESPLOT_SHARED_BUFFER_SIZE) ∧
    (∀ (now byte : Nat) (s : AresState), s.rxState = .waitLen2 →
      ARESPLOT_SHARED_BUFFER_SIZE < (s.rxLen ||| (byte <<< 8)) →
      (aresplot_rx_feed_byte now s byte).1.rxState = .waitSop ∧
      ∀ a, (aresplot_rx_feed_byte now s byte).1.rxBuf a = s.rxBuf a) := by
  refine ⟨fun s h => reachable_payload_inv s h, fun now byte s hst hgt => ?_⟩
  unfold aresplot_rx_feed_byte
  rw [hst]
  dsimp only
  rw [if_pos hgt]
  exact ⟨rfl, fun a => rfl⟩

/-- C9 witness: a concrete reachable `AwaitPayload` state satisfies the
bound, and a concrete oversize length field aborts to `AwaitStart` leaving
the buffer untouched. -/
theorem rx_payload_in_bounds_witness :
    (c9_state.rxIdx < c9_state.rxLen ∧ c9_state.rxLen ≤ ARESPLOT_SHARED_BUFFER_SIZE) ∧
    ((aresplot_rx_feed_byte 0 c9_len2_state 1).1.rxState = .waitSop ∧
      ∀ a, (aresplot_rx_feed_byte 0 c9_len2_state 1).1.rxBuf a = c9_len2_state.rxBuf a) :=
  ⟨rx_payload_in_bounds.1 c9_state
      (Reachable.feed 0 0x00 (Reachable.feed 0 0x02 (Reachable.feed 0 0x05
        (Reachable.feed 0 0xA5 (Reachable.init zero_mem))))) (by decide),
   rx_payload_in_bounds.2 0 1 c9_len2_state rfl (by decide)⟩

end Aresplot
